import Mathlib

/-
Verification of the mood-tracking engine of irc-analysis.py.

The embedding below translates the stateful Python classes into explicit
state passing:
  - SentimentAnalyzer.analyze_sentiment  -> classify / analyze_sentiment
  - DatabaseManager (SQLite)             -> DBState with get_user_preferences,
                                            set_user_preferences, log_sentiment
  - MoodAwareAI                          -> AIState with analyze_message,
                                            get_latest_message, MoodAwareAI.init
  - MoodCheckBot scheduler               -> schedule_periodic_mood_check,
                                            check_and_respond_periodically
Polarity scores (Python floats in [-1, 1]) are modelled as rationals, so the
threshold comparisons of the source are exact.  The external TextBlob scorer
and the IRC transport are injected as function parameters; their failures are
modelled with Except.
-/

namespace IrcAnalysis

/-- Sentiment labels produced by SentimentAnalyzer.analyze_sentiment
(the strings Positive, Negative, Neutral at lines 89, 91, 93). -/
inductive Label
  | Positive
  | Negative
  | Neutral
deriving DecidableEq, Repr

/-- Modelled from the spec: the failure raised by the external NLP scorer
(TextBlob, not part of this repository); the spec names this failure
ClassificationError.  The payload is an opaque description. -/
structure ClassificationError where
  msg : String
deriving DecidableEq, Repr

/-- Failure of the IRC transport while delivering a message
(connection.privmsg raising); the transport is an external collaborator. -/
structure DeliveryError where
  msg : String
deriving DecidableEq, Repr

/-- Failure raised by the sqlite3 driver, such as the SQLITE_MISMATCH error
(datatype mismatch) produced when a non-integer value is bound to the
INTEGER PRIMARY KEY rowid alias column. -/
structure SqliteError where
  msg : String
deriving DecidableEq, Repr

/-- The injected external scorer: TextBlob(text).sentiment.polarity
(line 85-86).  It returns a polarity or fails. -/
abbrev Scorer := String → Except ClassificationError ℚ

/-- The injected transport delivery operation: connection.privmsg. -/
abbrev Deliver := String → Except DeliveryError Unit

/-- The threshold logic of SentimentAnalyzer.analyze_sentiment, lines 88-93:
polarity > 0.1 gives Positive, polarity < -0.1 gives Negative, otherwise
Neutral. -/
def classify (polarity : ℚ) : Label :=
  if polarity > mkRat 1 10 then Label.Positive
  else if polarity < -(mkRat 1 10) then Label.Negative
  else Label.Neutral

/-- The threshold written 0.1 in the source is exactly the rational 1/10;
mkRat is used in classify so that concrete runs reduce by kernel
computation. -/
theorem threshold_eq : mkRat 1 10 = (1/10 : ℚ) := by
  norm_num [mkRat]

/-- SentimentAnalyzer.analyze_sentiment (lines 82-93): obtain the polarity
from the scorer (a scorer failure propagates, there is no handler), then
return the label together with the polarity. -/
def analyze_sentiment (scorer : Scorer) (text : String) :
    Except ClassificationError (Label × ℚ) :=
  match scorer text with
  | Except.error e => Except.error e
  | Except.ok polarity => Except.ok (classify polarity, polarity)

/-- One row of the preferences table (without its user_id key), columns
enable_mood_checks, check_interval, mood_threshold (lines 33-37). -/
structure Prefs where
  enable_mood_checks : Bool
  check_interval : Int
  mood_threshold : ℚ
deriving DecidableEq, Repr

/-- One row of the sentiment_history table (lines 38-45): id is the SQLite
INTEGER PRIMARY KEY rowid; the timestamp column is not modelled because no
claim mentions it.  user_id is a String because the caller (on_pubmsg,
line 148-149) passes the IRC nick. -/
structure SentimentRecord where
  id : Nat
  user_id : String
  message : String
  sentiment : Label
  polarity : ℚ
deriving DecidableEq, Repr

/-- The state held by the SQLite database behind DatabaseManager: the
preferences table as a map from user_id to its row, and the
sentiment_history table as the list of its rows in insertion order.  The
preferences key is an Int because the column is INTEGER PRIMARY KEY
(line 34), the rowid alias, which can only ever hold integers; the
sentiment_history user_id is a plain INTEGER-affinity column (line 40), so
it stores the program's text nicks unchanged. -/
structure DBState where
  preferences : Int → Option Prefs
  sentiment_history : List SentimentRecord

/-- Reads a run of decimal digits into the accumulated natural number;
any non-digit character makes the reading fail. -/
def digitsToNatAux : List Char → Nat → Option Nat
  | [], acc => some acc
  | c :: rest, acc =>
      if c.isDigit then digitsToNatAux rest (acc * 10 + (c.toNat - 48))
      else none

/-- Reads a non-empty all-digit character list as a natural number. -/
def digitsToNat : List Char → Option Nat
  | [] => none
  | c :: rest => digitsToNatAux (c :: rest) 0

/-- SQLite affinity conversion of a bound text value for an INTEGER column:
the text is converted exactly when it reads losslessly as an integer
(optional leading minus sign followed by digits); otherwise no integer
value exists for it.  The program's user identities are IRC nicks
(on_pubmsg, line 148), which are non-numeric. -/
def sqliteIntKey (user_id : String) : Option Int :=
  match user_id.data with
  | '-' :: rest => (digitsToNat rest).map (fun n => -(Int.ofNat n))
  | l => (digitsToNat l).map (fun n => Int.ofNat n)

/-- The largest id present in the history (0 when empty); SQLite assigns the
rowid of a fresh insert as one more than this when no row was ever
deleted, which holds here because no delete is ever issued. -/
def maxId : List SentimentRecord → Nat
  | [] => 0
  | r :: t => max r.id (maxId t)

/-- DatabaseManager.get_user_preferences (lines 50-57): SELECT * with the
bound key compared against the INTEGER PRIMARY KEY column; a non-numeric
text key matches no row, a numeric one matches its integer row, and the
returned row carries the key as the stored integer. -/
def get_user_preferences (db : DBState) (user_id : String) :
    Option (Int × Prefs) :=
  match sqliteIntKey user_id with
  | none => none
  | some k => (db.preferences k).map (fun p => (k, p))

/-- DatabaseManager.set_user_preferences (lines 59-67): INSERT OR REPLACE
stores the full four-column row for the key, replacing any previous row;
binding a value with no lossless integer reading to the INTEGER PRIMARY KEY
rowid alias makes sqlite3 raise a datatype mismatch and store nothing. -/
def set_user_preferences (db : DBState) (user_id : String)
    (enable_mood_checks : Bool) (check_interval : Int) (mood_threshold : ℚ) :
    Except SqliteError DBState :=
  match sqliteIntKey user_id with
  | none => Except.error ⟨"datatype mismatch"⟩
  | some k =>
      Except.ok
        { db with
          preferences := fun u =>
            if u = k then some ⟨enable_mood_checks, check_interval, mood_threshold⟩
            else db.preferences u }

/-- DatabaseManager.log_sentiment (lines 69-77): INSERT a new history row; the
store assigns the rowid maxId + 1.  The Python function has no return
statement, so its value is None; the second component records that returned
value (an id would be some n, the actual return is none). -/
def log_sentiment (db : DBState) (user_id : String) (message : String)
    (sentiment : Label) (polarity : ℚ) : DBState × Option Nat :=
  let newId := maxId db.sentiment_history + 1
  ({ db with
     sentiment_history :=
       db.sentiment_history ++ [⟨newId, user_id, message, sentiment, polarity⟩] },
   none)

/-- The state of a MoodAwareAI instance: the database plus the
latest_message slot (a triple of message, sentiment, polarity, line 108). -/
structure AIState where
  db : DBState
  latest_message : Option (String × Label × ℚ)

/-- MoodAwareAI.__init__ (lines 98-102): the latest_message slot starts as
None; the database contents come from disk (setup_db only creates missing
tables). -/
def MoodAwareAI.init (db : DBState) : AIState :=
  { db := db, latest_message := none }

/-- MoodAwareAI.analyze_message (lines 104-109): classify, then log to the
database, then overwrite latest_message, then return (sentiment, polarity).
A scorer failure propagates out before any mutation, so the state component
of the result is the unchanged input state in that case. -/
def analyze_message (scorer : Scorer) (s : AIState) (message : String)
    (user_id : String) : Except ClassificationError (Label × ℚ) × AIState :=
  match analyze_sentiment scorer message with
  | Except.error e => (Except.error e, s)
  | Except.ok (sentiment, polarity) =>
      (Except.ok (sentiment, polarity),
       { db := (log_sentiment s.db user_id message sentiment polarity).1,
         latest_message := some (message, sentiment, polarity) })

/-- MoodAwareAI.get_latest_message (lines 111-113). -/
def get_latest_message (s : AIState) : Option (String × Label × ℚ) :=
  s.latest_message

/-- MoodCheckBot.schedule_periodic_mood_check (lines 160-162): starts
threading.Timer(300, check_and_respond_periodically); the result is the
delay, in seconds, before the scheduled tick fires.  The method reads
nothing from the bot state or the database, hence the constant. -/
def schedule_periodic_mood_check (_s : AIState) : Nat := 300

/-- The response text composed by a tick for a non-empty latest message
(lines 171-176; apostrophes of the source wording elided). -/
def periodic_response (message : String) (sentiment : Label) : String :=
  if sentiment = Label.Positive then
    "Great mood! Keep it up! (" ++ message ++ ")"
  else if sentiment = Label.Negative then
    "Hang in there! We are here for you. (" ++ message ++ ")"
  else
    "Neutral mood, feel free to talk to me! (" ++ message ++ ")"

/-- Observable outcome of one tick: the message delivered to the channel, if
any, and whether schedule_periodic_mood_check (line 180) was reached. -/
structure TickResult where
  sent : Option String
  rescheduled : Bool
deriving DecidableEq, Repr

/-- MoodCheckBot.check_and_respond_periodically (lines 164-180): read the
latest message; when present, compose the response and deliver it via
connection.privmsg; finally call schedule_periodic_mood_check.  There is no
exception handler, so when delivery fails the exception propagates and the
call at line 180 is never reached. -/
def check_and_respond_periodically (deliver : Deliver) (s : AIState) :
    TickResult :=
  match get_latest_message s with
  | none => { sent := none, rescheduled := true }
  | some (message, sentiment, _score) =>
      let response := periodic_response message sentiment
      match deliver response with
      | Except.ok _ => { sent := some response, rescheduled := true }
      | Except.error _ => { sent := none, rescheduled := false }

/-- The operations of the engine that can run after start-up, for stating
state invariants: an inbound message (on_pubmsg calling analyze_message), a
read of the latest message, a preference read or write, and a scheduler
tick (which never writes the AI state). -/
inductive Op
  | analyzeOp (message : String) (user_id : String)
  | getLatestOp
  | getPrefsOp (user_id : String)
  | updatePrefsOp (user_id : String) (enable_mood_checks : Bool)
      (check_interval : Int) (mood_threshold : ℚ)
  | tickOp

/-- The state transition of each operation; reads leave the state unchanged,
a tick only reads latest_message and sends, and a preference write either
replaces the row (integer key) or raises out of the database call leaving
everything unchanged (non-numeric key). -/
def step (scorer : Scorer) (s : AIState) : Op → AIState
  | Op.analyzeOp message user_id => (analyze_message scorer s message user_id).2
  | Op.getLatestOp => s
  | Op.getPrefsOp _ => s
  | Op.updatePrefsOp u e ci mt =>
      match set_user_preferences s.db u e ci mt with
      | Except.ok db1 => { s with db := db1 }
      | Except.error _ => s
  | Op.tickOp => s

/-- A database with empty tables, as created by setup_db on a fresh file. -/
def dbEmpty : DBState :=
  { preferences := fun _ => none, sentiment_history := [] }

/-- A scorer that always succeeds with polarity 0, for concrete runs. -/
def zeroScorer : Scorer := fun _ => Except.ok 0

/-- A transport whose delivery always fails, for concrete runs. -/
def failDeliver : Deliver := fun _ => Except.error ⟨"connection lost"⟩

/-- A transport whose delivery always succeeds, for concrete runs. -/
def okDeliver : Deliver := fun _ => Except.ok ()

/-- A reachable state with a non-empty latest_message slot: one message
analyzed after a fresh start. -/
def reachedState : AIState :=
  (analyze_message zeroScorer (MoodAwareAI.init dbEmpty) "hello" "alice").2

/-- A scorer that always succeeds with polarity 1/2, for concrete runs. -/
def halfScorer : Scorer := fun _ => Except.ok (mkRat 1 2)

/-- A scorer realising the two-user scenario of the spec: the positive
message scores 1/2, anything else scores -(1/2). -/
def scenarioScorer : Scorer := fun t =>
  if t = "I love this!" then Except.ok (mkRat 1 2) else Except.ok (-(mkRat 1 2))

/-- A scorer that always fails, for concrete runs. -/
def boomScorer : Scorer := fun _ => Except.error ⟨"boom"⟩

/-- Running analyze_sentiment with a scorer that yields polarity p gives the
classified label paired with p. -/
theorem analyze_sentiment_ok (scorer : Scorer) (text : String) (p : ℚ)
    (h : scorer text = Except.ok p) :
    analyze_sentiment scorer text = Except.ok (classify p, p) := by
  simp [analyze_sentiment, h]

/-- The classification thresholds of classify, written with the exact
rational 1/10 for the source literal 0.1. -/
theorem classify_spec (p : ℚ) :
    (p > 1/10 → classify p = Label.Positive) ∧
    (p < -(1/10) → classify p = Label.Negative) ∧
    (-(1/10) ≤ p → p ≤ 1/10 → classify p = Label.Neutral) := by
  unfold classify
  rw [threshold_eq]
  refine ⟨fun hp => ?_, fun hn => ?_, fun hl hu => ?_⟩
  · rw [if_pos hp]
  · rw [if_neg (by linarith), if_pos hn]
  · rw [if_neg (by linarith), if_neg (by linarith)]

/-- C1: for every polarity p returned by the underlying scorer,
analyze_sentiment returns Positive when p > 0.1, Negative when p < -0.1,
and Neutral otherwise; in particular both boundary values exactly 0.1 and
-0.1 classify as Neutral. -/
theorem classify_thresholds (scorer : Scorer) (text : String) (p : ℚ)
    (h : scorer text = Except.ok p) :
    (p > 1/10 → analyze_sentiment scorer text = Except.ok (Label.Positive, p)) ∧
    (p < -(1/10) → analyze_sentiment scorer text = Except.ok (Label.Negative, p)) ∧
    (-(1/10) ≤ p → p ≤ 1/10 →
      analyze_sentiment scorer text = Except.ok (Label.Neutral, p)) ∧
    ((p = 1/10 ∨ p = -(1/10)) →
      analyze_sentiment scorer text = Except.ok (Label.Neutral, p)) := by
  have hs := analyze_sentiment_ok scorer text p h
  obtain ⟨hP, hN, hZ⟩ := classify_spec p
  refine ⟨fun hp => ?_, fun hn => ?_, fun hl hu => ?_, fun hb => ?_⟩
  · rw [hs, hP hp]
  · rw [hs, hN hn]
  · rw [hs, hZ hl hu]
  · rcases hb with hb | hb <;> subst hb <;>
      rw [hs, hZ (by norm_num) (by norm_num)]

/-- Witness for C1: a scorer returning exactly the boundary polarity 0.1
classifies as Neutral. -/
theorem classify_thresholds_witness :
    analyze_sentiment (fun _ => Except.ok (mkRat 1 10)) "ok then" =
      Except.ok (Label.Neutral, mkRat 1 10) := by
  have h := (classify_thresholds (fun _ => Except.ok (mkRat 1 10)) "ok then"
    (mkRat 1 10) rfl).2.2.2 (Or.inl threshold_eq)
  rw [h, threshold_eq]

/-- C2: analyze_message immediately followed by get_latest_message returns a
record whose message, label and polarity are exactly those of the analyze
call's return value. -/
theorem analyze_then_latest (scorer : Scorer) (s : AIState) (m u : String)
    (lbl : Label) (pol : ℚ)
    (h : (analyze_message scorer s m u).1 = Except.ok (lbl, pol)) :
    get_latest_message (analyze_message scorer s m u).2 = some (m, lbl, pol) := by
  cases hs : analyze_sentiment scorer m with
  | error e => simp [analyze_message, hs] at h
  | ok r =>
      obtain ⟨l, p⟩ := r
      simp only [analyze_message, hs, Except.ok.injEq, Prod.mk.injEq] at h
      obtain ⟨h1, h2⟩ := h
      subst h1; subst h2
      simp [analyze_message, hs, get_latest_message]

/-- Witness for C2: one concrete analyze call followed by a read of the
latest message. -/
theorem analyze_then_latest_witness :
    get_latest_message
        (analyze_message halfScorer (MoodAwareAI.init dbEmpty)
          "I love this" "alice").2 =
      some ("I love this", Label.Positive, mkRat 1 2) :=
  analyze_then_latest halfScorer (MoodAwareAI.init dbEmpty) "I love this"
    "alice" Label.Positive (mkRat 1 2) rfl

/-- Every id present in a history list is at most maxId of that list. -/
theorem mem_id_le_maxId (h : List SentimentRecord) (r : SentimentRecord)
    (hr : r ∈ h) : r.id ≤ maxId h := by
  induction h with
  | nil => exact absurd hr (List.not_mem_nil r)
  | cons x t ih =>
      rw [List.mem_cons] at hr
      rcases hr with hr | hr
      · subst hr; exact le_max_left _ _
      · exact le_trans (ih hr) (le_max_right _ _)

/-- Counterexample for C3: at a concrete input the append operation
(log_sentiment) returns None, while the store assigned the new record the
id 1; the operation therefore does not return the assigned id. -/
theorem log_sentiment_returns_none :
    (log_sentiment dbEmpty "alice" "hi" Label.Neutral 0).2 = none ∧
    maxId (log_sentiment dbEmpty "alice" "hi" Label.Neutral 0).1.sentiment_history = 1 ∧
    (log_sentiment dbEmpty "alice" "hi" Label.Neutral 0).2 ≠ some 1 := by
  refine ⟨rfl, rfl, by simp [log_sentiment]⟩

/-- C3 (amended): every append stores one new record whose id, assigned by
the store, is strictly greater than every id already in the history (hence
unique and strictly greater than the id of every previously appended
record); the Python wrapper itself returns None, not the assigned id. -/
theorem log_sentiment_fresh_id (db : DBState) (u m : String) (l : Label)
    (p : ℚ) :
    ∃ r : SentimentRecord,
      (log_sentiment db u m l p).1.sentiment_history =
        db.sentiment_history ++ [r] ∧
      (∀ r' ∈ db.sentiment_history, r'.id < r.id) ∧
      (log_sentiment db u m l p).2 = none := by
  refine ⟨⟨maxId db.sentiment_history + 1, u, m, l, p⟩, rfl, ?_, rfl⟩
  intro r' hr'
  have hle := mem_id_le_maxId db.sentiment_history r' hr'
  show r'.id < maxId db.sentiment_history + 1
  omega

/-- Counterexample for C4: with the identity the program actually passes, the
IRC nick alice, set_user_preferences raises a datatype mismatch (the
preferences key column is INTEGER PRIMARY KEY) and stores nothing, and
get_user_preferences for that key returns None, not the stored record. -/
theorem prefs_string_key_mismatch :
    set_user_preferences dbEmpty "alice" true 300 0 =
      Except.error ⟨"datatype mismatch"⟩ ∧
    get_user_preferences dbEmpty "alice" = none := by
  constructor <;> rfl

/-- C4 (amended): for a user_id with a lossless integer reading k, set
followed by get returns exactly the stored record under the integer key k,
and a second set fully overwrites a first one (no field of the earlier
record survives); for a non-numeric user_id, such as the IRC nicks the
program uses, set raises a datatype mismatch and stores nothing. -/
theorem prefs_set_get_roundtrip (db : DBState) (u : String) (k : Int)
    (e : Bool) (ci : Int) (mt : ℚ) (e' : Bool) (ci' : Int) (mt' : ℚ) :
    (sqliteIntKey u = some k →
      ∃ db1, set_user_preferences db u e ci mt = Except.ok db1 ∧
        get_user_preferences db1 u = some (k, ⟨e, ci, mt⟩) ∧
        ∃ db0 db2, set_user_preferences db u e' ci' mt' = Except.ok db0 ∧
          set_user_preferences db0 u e ci mt = Except.ok db2 ∧
          get_user_preferences db2 u = some (k, ⟨e, ci, mt⟩)) ∧
    (sqliteIntKey u = none →
      set_user_preferences db u e ci mt =
        Except.error ⟨"datatype mismatch"⟩) := by
  constructor
  · intro hk
    simp only [set_user_preferences, hk]
    refine ⟨_, rfl, ?_, _, _, rfl, rfl, ?_⟩ <;>
      simp [get_user_preferences, hk]
  · intro hk
    simp only [set_user_preferences, hk]

/-- Witness for C4 (amended): a numeric key round-trips under its integer
reading, and the nick bob fails with a datatype mismatch. -/
theorem prefs_set_get_roundtrip_witness :
    (∃ db1, set_user_preferences dbEmpty "42" true 300 0 = Except.ok db1 ∧
      get_user_preferences db1 "42" = some (42, ⟨true, 300, 0⟩)) ∧
    set_user_preferences dbEmpty "bob" true 300 0 =
      Except.error ⟨"datatype mismatch"⟩ := by
  constructor
  · obtain ⟨db1, h1, h2, -⟩ :=
      (prefs_set_get_roundtrip dbEmpty "42" 42 true 300 0 false 60 1).1 rfl
    exact ⟨db1, h1, h2⟩
  · exact (prefs_set_get_roundtrip dbEmpty "bob" 0 true 300 0 false 60 1).2 rfl

/-- C5: when the scorer fails, analyze_message surfaces that same
ClassificationError unmasked, nothing is appended to the history, and the
latest_message slot is not updated (the state is unchanged). -/
theorem scorer_failure_surfaces (scorer : Scorer) (s : AIState) (m u : String)
    (e : ClassificationError) (h : scorer m = Except.error e) :
    (analyze_message scorer s m u).1 = Except.error e ∧
    (analyze_message scorer s m u).2 = s := by
  have hs : analyze_sentiment scorer m = Except.error e := by
    simp [analyze_sentiment, h]
  exact ⟨by simp [analyze_message, hs], by simp [analyze_message, hs]⟩

/-- Witness for C5: a concrete failing scorer propagates its error and
leaves the fresh state untouched. -/
theorem scorer_failure_surfaces_witness :
    (analyze_message boomScorer (MoodAwareAI.init dbEmpty) "hi" "alice").1 =
      Except.error ⟨"boom"⟩ ∧
    (analyze_message boomScorer (MoodAwareAI.init dbEmpty) "hi" "alice").2 =
      MoodAwareAI.init dbEmpty :=
  scorer_failure_surfaces boomScorer (MoodAwareAI.init dbEmpty) "hi" "alice"
    ⟨"boom"⟩ rfl

/-- Counterexample for C6: from a reachable state with a non-empty latest
message, a tick whose delivery fails does not reach
schedule_periodic_mood_check, so the next tick is not scheduled. -/
theorem tick_delivery_failure_skips_reschedule :
    (get_latest_message reachedState).isSome = true ∧
    (check_and_respond_periodically failDeliver reachedState).rescheduled =
      false :=
  ⟨rfl, rfl⟩

/-- C6 (amended): a tick reschedules the next tick exactly when it had
nothing to deliver (empty latest message) or its delivery succeeded; a
delivery failure during a tick with a non-empty latest message propagates
and prevents the next tick from being scheduled. -/
theorem tick_reschedule_iff_delivery_ok (deliver : Deliver) (s : AIState) :
    (get_latest_message s = none →
      check_and_respond_periodically deliver s =
        { sent := none, rescheduled := true }) ∧
    (∀ m l p, get_latest_message s = some (m, l, p) →
      ((check_and_respond_periodically deliver s).rescheduled = true ↔
        deliver (periodic_response m l) = Except.ok ())) := by
  constructor
  · intro h
    simp [check_and_respond_periodically, h]
  · intro m l p h
    cases hd : deliver (periodic_response m l) with
    | ok v =>
        cases v
        simp [check_and_respond_periodically, h, hd]
    | error e =>
        simp [check_and_respond_periodically, h, hd]

/-- Witness for C6 (amended): from the reachable non-empty state, a tick
with a succeeding delivery does schedule the next tick. -/
theorem tick_reschedule_iff_delivery_ok_witness :
    (check_and_respond_periodically okDeliver reachedState).rescheduled =
      true :=
  ((tick_reschedule_iff_delivery_ok okDeliver reachedState).2 "hello"
    Label.Neutral 0 rfl).mpr rfl

/-- C7: before any analyze call since process start, get_latest_message
returns the empty sentinel None, and a scheduler tick in that state sends
no message (and still schedules the next tick). -/
theorem initial_latest_empty_tick_silent (db : DBState) (deliver : Deliver) :
    get_latest_message (MoodAwareAI.init db) = none ∧
    check_and_respond_periodically deliver (MoodAwareAI.init db) =
      { sent := none, rescheduled := true } :=
  ⟨rfl, rfl⟩

/-- C8: the latest_message slot is a single global last-write-wins slot:
after analyzing a message for alice and then one for bob, the latest
message is bob's record, while alice's record remains in the sentiment
history. -/
theorem latest_is_global_last_write (scorer : Scorer) (s : AIState)
    (m1 m2 : String) (p1 p2 : ℚ)
    (h1 : scorer m1 = Except.ok p1) (h2 : scorer m2 = Except.ok p2) :
    get_latest_message
        (analyze_message scorer
          (analyze_message scorer s m1 "alice").2 m2 "bob").2 =
      some (m2, classify p2, p2) ∧
    (∃ r ∈ (analyze_message scorer
          (analyze_message scorer s m1 "alice").2 m2 "bob").2.db.sentiment_history,
      r.user_id = "alice" ∧ r.message = m1 ∧ r.sentiment = classify p1 ∧
        r.polarity = p1) := by
  have hs1 := analyze_sentiment_ok scorer m1 p1 h1
  have hs2 := analyze_sentiment_ok scorer m2 p2 h2
  constructor
  · simp [analyze_message, hs1, hs2, get_latest_message]
  · refine ⟨⟨maxId s.db.sentiment_history + 1, "alice", m1, classify p1, p1⟩,
      ?_, rfl, rfl, rfl, rfl⟩
    simp [analyze_message, hs1, hs2, log_sentiment]

/-- Witness for C8: the concrete two-user scenario of the spec. -/
theorem latest_is_global_last_write_witness :
    get_latest_message
        (analyze_message scenarioScorer
          (analyze_message scenarioScorer (MoodAwareAI.init dbEmpty)
            "I love this!" "alice").2 "I hate this" "bob").2 =
      some ("I hate this", classify (-(mkRat 1 2)), -(mkRat 1 2)) :=
  (latest_is_global_last_write scenarioScorer (MoodAwareAI.init dbEmpty)
    "I love this!" "I hate this" (mkRat 1 2) (-(mkRat 1 2)) rfl rfl).1

/-- C9: the scheduler delay is the fixed constant 300 for every state, also
after any per-user preference write (whether the write stored a row or
raised), and a tick is wholly insensitive to the whole database, the
stored preferences included: it behaves identically on states differing
only in their database. -/
theorem scheduler_fixed_period (s : AIState) (d : DBState) (u : String)
    (e : Bool) (ci : Int) (mt : ℚ) (deliver : Deliver) (scorer : Scorer) :
    schedule_periodic_mood_check s = 300 ∧
    schedule_periodic_mood_check
        (step scorer s (Op.updatePrefsOp u e ci mt)) = 300 ∧
    check_and_respond_periodically deliver { s with db := d } =
      check_and_respond_periodically deliver s ∧
    check_and_respond_periodically deliver
        (step scorer s (Op.updatePrefsOp u e ci mt)) =
      check_and_respond_periodically deliver s := by
  refine ⟨rfl, rfl, rfl, ?_⟩
  cases hp : set_user_preferences s.db u e ci mt with
  | ok db1 =>
      have h1 : step scorer s (Op.updatePrefsOp u e ci mt) = { s with db := db1 } := by
        simp only [step, hp]
      rw [h1]
      rfl
  | error er =>
      have h1 : step scorer s (Op.updatePrefsOp u e ci mt) = s := by
        simp only [step, hp]
      rw [h1]

/-- One engine operation keeps the latest_message slot non-empty once it is
non-empty: reads and ticks leave the state unchanged, a preference write
leaves the slot unchanged, a successful analyze overwrites it with a fresh
non-empty value, and a failed analyze leaves the whole state unchanged. -/
theorem step_preserves_latest (scorer : Scorer) (s : AIState) (op : Op)
    (h : (get_latest_message s).isSome = true) :
    (get_latest_message (step scorer s op)).isSome = true := by
  cases op with
  | analyzeOp m u =>
      cases hs : analyze_sentiment scorer m with
      | error e => simpa [step, analyze_message, hs, get_latest_message] using h
      | ok r =>
          obtain ⟨l, p⟩ := r
          simp [step, analyze_message, hs, get_latest_message]
  | getLatestOp => exact h
  | getPrefsOp u => exact h
  | updatePrefsOp u e ci mt =>
      cases hp : set_user_preferences s.db u e ci mt with
      | ok db1 => simpa [step, hp, get_latest_message] using h
      | error er => simpa [step, hp, get_latest_message] using h
  | tickOp => exact h

/-- C10: once the latest_message slot is non-empty, it stays non-empty for
the rest of the run: no sequence of engine operations ever clears it. -/
theorem latest_nonempty_invariant (scorer : Scorer) (ops : List Op)
    (s : AIState) (h : (get_latest_message s).isSome = true) :
    (get_latest_message (ops.foldl (step scorer) s)).isSome = true := by
  induction ops generalizing s with
  | nil => exact h
  | cons op t ih => exact ih _ (step_preserves_latest scorer s op h)

/-- Witness for C10: after one analyzed message, a concrete run of one of
each operation keeps the slot non-empty; the scorer fails, so the analyze
in the run raises, and the preference write raises on the nick bob. -/
theorem latest_nonempty_invariant_witness :
    (get_latest_message
        ([Op.tickOp, Op.getLatestOp, Op.getPrefsOp "bob",
          Op.updatePrefsOp "bob" false 60 0,
          Op.analyzeOp "more" "bob"].foldl (step boomScorer)
          reachedState)).isSome = true :=
  latest_nonempty_invariant boomScorer
    [Op.tickOp, Op.getLatestOp, Op.getPrefsOp "bob",
      Op.updatePrefsOp "bob" false 60 0, Op.analyzeOp "more" "bob"]
    reachedState rfl

end IrcAnalysis
